import Mathlib

/-!
Shallow embedding of the resilient API-access layer of the frontapp CLI
(package internal/api and internal/auth of the repository): circuit
breaker, resource-ID validation, rate limiter, token refresh, the
request-dispatch loop of the client, and the retrying transport.
Instants and durations are modelled as integer nanoseconds (Go
time.Time / time.Duration), Go strings as Lean strings, and Go error
values as an explicit wrapping tree.
-/

namespace Frontapp

/-- Source constant CircuitBreakerThreshold: consecutive failures needed
to open the breaker. -/
def CircuitBreakerThreshold : Nat := 5

/-- Source constant CircuitBreakerResetTime (30 seconds), in
nanoseconds. -/
def CircuitBreakerResetTime : Int := 30 * 1000000000

/-- State of the circuit breaker (struct CircuitBreaker): consecutive
failure count, timestamp of the last failure, and the open flag (field
`open` in the source, renamed because `open` is a Lean keyword).  The
mutex is dropped: operations are modelled as pure state transformers. -/
structure CircuitBreaker where
  failures : Nat
  lastFailure : Int
  openFlag : Bool
deriving DecidableEq

/-- NewCircuitBreaker: the zero value — no failures, zero timestamp,
closed. -/
def NewCircuitBreaker : CircuitBreaker := ⟨0, 0, false⟩

/-- RecordSuccess: resets the failure count to 0 and closes the breaker,
from any state. -/
def RecordSuccess (cb : CircuitBreaker) : CircuitBreaker :=
  { cb with failures := 0, openFlag := false }

/-- RecordFailure at time `now`: increments the failure count and stamps
the failure time; when the incremented count has reached the threshold it
sets the open flag and returns true, otherwise it returns false.  (The
source increments in place and then compares the count to the threshold;
here the comparison is written on the incremented value.) -/
def RecordFailure (cb : CircuitBreaker) (now : Int) : CircuitBreaker × Bool :=
  if CircuitBreakerThreshold ≤ cb.failures + 1 then
    ({ cb with failures := cb.failures + 1, lastFailure := now, openFlag := true }, true)
  else
    ({ cb with failures := cb.failures + 1, lastFailure := now }, false)

/-- IsOpen at time `now`: false when the flag is down; when the flag is
up and more than the cooldown has elapsed since the last failure
(time.Since(lastFailure) > CircuitBreakerResetTime), it closes the
breaker, resets the count and answers false; otherwise it answers true.
Returns the updated state together with the answer. -/
def IsOpen (cb : CircuitBreaker) (now : Int) : CircuitBreaker × Bool :=
  if cb.openFlag = false then (cb, false)
  else if CircuitBreakerResetTime < now - cb.lastFailure then
    ({ cb with openFlag := false, failures := 0 }, false)
  else (cb, true)

/-- Apply RecordFailure once per listed timestamp, in order, discarding
the boolean results. -/
def recordFailuresFrom (cb : CircuitBreaker) : List Int → CircuitBreaker
  | [] => cb
  | t :: ts => recordFailuresFrom (RecordFailure cb t).1 ts

/-- One call against the breaker: a success report, a failure report at
some instant, or an IsOpen query at some instant. -/
inductive CBOp where
  | success : CBOp
  | failure (t : Int) : CBOp
  | query (t : Int) : CBOp

/-- State transformer of a single breaker call (results discarded). -/
def cbStep (cb : CircuitBreaker) : CBOp → CircuitBreaker
  | CBOp.success => RecordSuccess cb
  | CBOp.failure t => (RecordFailure cb t).1
  | CBOp.query t => (IsOpen cb t).1

/-- Run a sequence of breaker calls from the fresh breaker. -/
def cbRun (ops : List CBOp) : CircuitBreaker :=
  ops.foldl cbStep NewCircuitBreaker

lemma cbStep_preserves_open_threshold (cb : CircuitBreaker) (op : CBOp)
    (h : cb.openFlag = true → CircuitBreakerThreshold ≤ cb.failures) :
    (cbStep cb op).openFlag = true → CircuitBreakerThreshold ≤ (cbStep cb op).failures := by
  cases op with
  | success => simp [cbStep, RecordSuccess]
  | failure t =>
    simp only [cbStep, RecordFailure]
    split
    · next hle => intro _; simpa using hle
    · intro ho
      have := h (by simpa using ho)
      simp only []
      omega
  | query t =>
    simp only [cbStep, IsOpen]
    split
    · exact h
    · split
      · simp
      · exact h

lemma cbRun_fold_invariant (ops : List CBOp) :
    ∀ cb : CircuitBreaker, (cb.openFlag = true → CircuitBreakerThreshold ≤ cb.failures) →
      ((ops.foldl cbStep cb).openFlag = true →
        CircuitBreakerThreshold ≤ (ops.foldl cbStep cb).failures) := by
  induction ops with
  | nil => intro cb h; simpa using h
  | cons op rest ih =>
    intro cb h
    simpa using ih (cbStep cb op) (cbStep_preserves_open_threshold cb op h)

/-- C3: from the fresh breaker, after four RecordFailure calls (at any
instants) IsOpen still answers false at any query instant; the fifth
consecutive RecordFailure makes IsOpen answer true (at any query instant
within the cooldown of the fifth failure); and a single RecordSuccess, in
any state whatsoever, resets the failure count to 0 and forces the
breaker closed. -/
theorem c3_five_failures_open (t1 t2 t3 t4 t5 now : Int)
    (h : now - t5 ≤ CircuitBreakerResetTime) :
    (IsOpen (recordFailuresFrom NewCircuitBreaker [t1, t2, t3, t4]) now).2 = false ∧
    (IsOpen (recordFailuresFrom NewCircuitBreaker [t1, t2, t3, t4, t5]) now).2 = true ∧
    (∀ cb : CircuitBreaker, (RecordSuccess cb).failures = 0 ∧ (RecordSuccess cb).openFlag = false) := by
  refine ⟨?_, ?_, fun cb => ⟨rfl, rfl⟩⟩
  · have hcb : recordFailuresFrom NewCircuitBreaker [t1, t2, t3, t4] =
        ⟨4, t4, false⟩ := by
      norm_num [recordFailuresFrom, RecordFailure, NewCircuitBreaker, CircuitBreakerThreshold]
    rw [hcb]
    simp [IsOpen]
  · have hcb : recordFailuresFrom NewCircuitBreaker [t1, t2, t3, t4, t5] =
        ⟨5, t5, true⟩ := by
      norm_num [recordFailuresFrom, RecordFailure, NewCircuitBreaker, CircuitBreakerThreshold]
    rw [hcb]
    simp only [IsOpen]
    rw [if_neg (by simp), if_neg (by omega)]

/-- Witness for c3_five_failures_open at concrete instants. -/
theorem c3_five_failures_open_witness :
    (IsOpen (recordFailuresFrom NewCircuitBreaker [0, 0, 0, 0]) 0).2 = false ∧
    (IsOpen (recordFailuresFrom NewCircuitBreaker [0, 0, 0, 0, 0]) 0).2 = true ∧
    (∀ cb : CircuitBreaker, (RecordSuccess cb).failures = 0 ∧ (RecordSuccess cb).openFlag = false) :=
  c3_five_failures_open 0 0 0 0 0 0 (by decide)

/-- C4: once the breaker is open, an IsOpen query at any instant no more
than 30 seconds past the last recorded failure answers true and leaves
the state untouched; a query strictly more than 30 seconds past the last
failure answers false and, in that same query, resets the failure count
to 0 and lowers the open flag. -/
theorem c4_cooldown_lazy_reset (cb : CircuitBreaker) (now : Int)
    (hopen : cb.openFlag = true) :
    (now - cb.lastFailure ≤ CircuitBreakerResetTime → IsOpen cb now = (cb, true)) ∧
    (CircuitBreakerResetTime < now - cb.lastFailure →
      IsOpen cb now = ({ cb with openFlag := false, failures := 0 }, false)) := by
  constructor
  · intro hle
    simp only [IsOpen]
    rw [if_neg (by simp [hopen]), if_neg (by omega)]
  · intro hgt
    simp only [IsOpen]
    rw [if_neg (by simp [hopen]), if_pos hgt]

/-- Witness for c4_cooldown_lazy_reset on a concrete open state. -/
theorem c4_cooldown_lazy_reset_witness :
    IsOpen ⟨5, 0, true⟩ 1000000000 = (⟨5, 0, true⟩, true) ∧
    IsOpen ⟨5, 0, true⟩ 31000000000 = (⟨0, 0, false⟩, false) :=
  ⟨(c4_cooldown_lazy_reset ⟨5, 0, true⟩ 1000000000 rfl).1 (by decide),
   (c4_cooldown_lazy_reset ⟨5, 0, true⟩ 31000000000 rfl).2 (by decide)⟩

/-- C8 counterexample: after five consecutive failures the count sits at
the threshold, yet a sixth RecordFailure call — which does not cross the
threshold, the count being already at it — still returns true, where the
claim demands false for every call other than the crossing one. -/
theorem c8_counterexample :
    (recordFailuresFrom NewCircuitBreaker [0, 0, 0, 0, 0]).failures = CircuitBreakerThreshold ∧
    (RecordFailure (recordFailuresFrom NewCircuitBreaker [0, 0, 0, 0, 0]) 0).2 = true := by
  decide

/-- C8 amended: RecordFailure increments the count, stamps the failure
instant, and returns true exactly when the incremented count is at or
beyond the threshold — on the crossing call and on every further failure
beyond it — not only on the crossing call. -/
theorem c8_amended_failure_report (cb : CircuitBreaker) (now : Int) :
    (RecordFailure cb now).1.failures = cb.failures + 1 ∧
    (RecordFailure cb now).1.lastFailure = now ∧
    (RecordFailure cb now).2 = decide (CircuitBreakerThreshold ≤ cb.failures + 1) := by
  by_cases h : CircuitBreakerThreshold ≤ cb.failures + 1 <;>
    simp [RecordFailure, h]

/-- C9: reachable-state invariant — starting from NewCircuitBreaker and
applying any sequence of RecordSuccess, RecordFailure and IsOpen calls,
whenever the open flag is raised the failure count is at least the
threshold of 5. -/
theorem c9_open_implies_threshold (ops : List CBOp)
    (h : (cbRun ops).openFlag = true) :
    CircuitBreakerThreshold ≤ (cbRun ops).failures :=
  cbRun_fold_invariant ops NewCircuitBreaker (by simp [NewCircuitBreaker]) h

/-- Witness for c9_open_implies_threshold on a concrete call sequence. -/
theorem c9_open_implies_threshold_witness :
    CircuitBreakerThreshold ≤
      (cbRun [CBOp.failure 0, CBOp.failure 0, CBOp.failure 0, CBOp.failure 0, CBOp.failure 0]).failures :=
  c9_open_implies_threshold
    [CBOp.failure 0, CBOp.failure 0, CBOp.failure 0, CBOp.failure 0, CBOp.failure 0]
    (by decide)

/-- Go unicode.IsSpace on a rune, as used by strings.TrimSpace: ASCII
whitespace, NEL, NBSP and the Unicode space separators. -/
def isGoSpace (c : Char) : Bool :=
  decide (c.toNat = 32 ∨ c.toNat = 9 ∨ c.toNat = 10 ∨ c.toNat = 11 ∨ c.toNat = 12 ∨
    c.toNat = 13 ∨ c.toNat = 0x85 ∨ c.toNat = 0xA0 ∨ c.toNat = 0x1680 ∨
    (0x2000 ≤ c.toNat ∧ c.toNat ≤ 0x200A) ∨ c.toNat = 0x2028 ∨ c.toNat = 0x2029 ∨
    c.toNat = 0x202F ∨ c.toNat = 0x205F ∨ c.toNat = 0x3000)

/-- strings.TrimSpace on the rune list of a Go string. -/
def goTrimSpace (l : List Char) : List Char :=
  ((l.dropWhile isGoSpace).reverse.dropWhile isGoSpace).reverse

/-- strings.Contains(s, "..") on a rune list. -/
def hasDotDot : List Char → Bool
  | '.' :: '.' :: _ => true
  | _ :: rest => hasDotDot rest
  | [] => false

/-- SanitizeID: trims whitespace, then rejects the empty result and any
ID containing a slash, a backslash, a dot while the ID contains "..",
or a control character (rune value at most 32, or 127).  Returns the
trimmed ID when it is safe (errors are collapsed to `none`; the source
always returns the single sentinel errInvalidID). -/
def SanitizeID (id : String) : Option String :=
  let t := goTrimSpace id.toList
  if t = [] then none
  else if t.any (fun r =>
      r == '/' || r == '\\' || (r == '.' && hasDotDot t) ||
      decide (r.toNat ≤ 32) || decide (r.toNat = 127)) then none
  else some (String.mk t)

/-- Number of UTF-8 bytes of a rune — Go string indices are byte
indices, so the byte-oriented parts of the source are mirrored through
this length. -/
def utf8Len (c : Char) : Nat :=
  if c.toNat < 0x80 then 1 else if c.toNat < 0x800 then 2
  else if c.toNat < 0x10000 then 3 else 4

/-- Go len() of a string: its UTF-8 byte length. -/
def byteLen (l : List Char) : Nat := l.foldl (fun a c => a + utf8Len c) 0

/-- strings.Index(id, "_"): byte index of the first underscore, none
when absent. -/
def byteIdxOfUnderscore : List Char → Option Nat
  | [] => none
  | c :: rest =>
    if c == '_' then some 0
    else (byteIdxOfUnderscore rest).map (fun i => utf8Len c + i)

/-- The slice id[:idx+1] where idx is the byte index of the first
underscore: all runes up to and including that underscore. -/
def takeThroughUnderscore : List Char → List Char
  | [] => []
  | c :: rest => if c == '_' then [c] else c :: takeThroughUnderscore rest

/-- Source function ExtractPrefix (renamed): returns the prefix portion
of a Front ID, e.g. "cnv_" from "cnv_abc123"; empty when the ID is
shorter than 4 bytes, has no underscore, or the underscore sits past
byte index 4. -/
def ExtractPfx (id : String) : String :=
  if byteLen id.toList < 4 then ""
  else
    match byteIdxOfUnderscore id.toList with
    | none => ""
    | some idx => if 4 < idx then "" else String.mk (takeThroughUnderscore id.toList)

/-- Source map ResourcePrefixes (renamed): ID prefix to human-readable
resource name; the empty string plays the role of the absent map entry
(Go map zero value). -/
def ResourcePfxs (p : String) : String :=
  if p = "cnv_" then "conversation"
  else if p = "msg_" then "message"
  else if p = "cmt_" then "comment"
  else if p = "tea_" then "teammate"
  else if p = "tag_" then "tag"
  else if p = "inb_" then "inbox"
  else if p = "chn_" then "channel"
  else if p = "ctc_" then "contact"
  else if p = "acc_" then "account"
  else if p = "rul_" then "rule"
  else if p = "lnk_" then "link"
  else if p = "shf_" then "shift"
  else if p = "sig_" then "signature"
  else if p = "evt_" then "event"
  else if p = "drf_" then "draft"
  else if p = "top_" then "topic"
  else ""

/-- GetResourceType: resource name for an ID based on its recognized
prefix, empty when unrecognized. -/
def GetResourceType (id : String) : String :=
  if ExtractPfx id = "" then "" else ResourcePfxs (ExtractPfx id)

/-- WrongResourceTypeError: the error naming the expected and the actual
resource kind plus the offending ID.  (The struct declaration itself is
not among the provided sources; its three fields are exactly those set
by ValidateIDPrefix and read by the tests.) -/
structure WrongResourceTypeError where
  ExpectedType : String
  ActualType : String
  ID : String
deriving DecidableEq

/-- Source function ValidateIDPrefix (renamed): returns a
WrongResourceTypeError when the ID carries a recognized prefix different
from the expected one; none when the prefix is absent, matches, or is
unrecognized. -/
def ValidateIDPfx (id expectedPfx : String) : Option WrongResourceTypeError :=
  if ExtractPfx id = "" then none
  else if ExtractPfx id = expectedPfx then none
  else if ResourcePfxs (ExtractPfx id) = "" then none
  else some ⟨ResourcePfxs expectedPfx, ResourcePfxs (ExtractPfx id), id⟩

/-- Local phase of a client get-operation: what happens before any
network traffic.  The localWrongType constructor exists so the claimed
behavior is expressible; the actual operations never produce it. -/
inductive OpStart where
  | localInvalidID : OpStart
  | localWrongType (e : WrongResourceTypeError) : OpStart
  | network (path : String) : OpStart
deriving DecidableEq

/-- GetConversation, local phase: SanitizeID, then the network request
against the conversation path.  No prefix check appears in the source. -/
def getConversationStart (id : String) : OpStart :=
  match SanitizeID id with
  | none => OpStart.localInvalidID
  | some id2 => OpStart.network ("/conversations/" ++ id2)

/-- GetMessage, local phase. -/
def getMessageStart (id : String) : OpStart :=
  match SanitizeID id with
  | none => OpStart.localInvalidID
  | some id2 => OpStart.network ("/messages/" ++ id2)

/-- GetTag, local phase. -/
def getTagStart (id : String) : OpStart :=
  match SanitizeID id with
  | none => OpStart.localInvalidID
  | some id2 => OpStart.network ("/tags/" ++ id2)

/-- GetInbox, local phase. -/
def getInboxStart (id : String) : OpStart :=
  match SanitizeID id with
  | none => OpStart.localInvalidID
  | some id2 => OpStart.network ("/inboxes/" ++ id2)

/-- C1 counterexample: the ID "msg_abc123" carries the recognized
message prefix, yet GetConversation does not fail locally with a
wrong-resource-type error — it sanitizes the ID and proceeds to the
network request for /conversations/msg_abc123. -/
theorem c1_counterexample :
    GetResourceType "msg_abc123" = "message" ∧
    getConversationStart "msg_abc123" = OpStart.network "/conversations/msg_abc123" := by
  decide

/-- C1 amended: the client get-operations validate IDs only through
SanitizeID and never fail with a wrong-resource-type error, for any ID;
the prefix comparison exists as the separate function ValidateIDPrefix —
which on a recognized foreign prefix names both the expected and the
actual resource kind — but no client operation invokes it. -/
theorem c1_amended_no_type_check_in_ops (id expectedPfx : String)
    (e : WrongResourceTypeError) :
    getConversationStart id ≠ OpStart.localWrongType e ∧
    getMessageStart id ≠ OpStart.localWrongType e ∧
    getTagStart id ≠ OpStart.localWrongType e ∧
    getInboxStart id ≠ OpStart.localWrongType e ∧
    (ExtractPfx id ≠ "" → ExtractPfx id ≠ expectedPfx →
      ResourcePfxs (ExtractPfx id) ≠ "" →
      ValidateIDPfx id expectedPfx =
        some ⟨ResourcePfxs expectedPfx, ResourcePfxs (ExtractPfx id), id⟩) := by
  refine ⟨?_, ?_, ?_, ?_, ?_⟩
  · cases h : SanitizeID id <;> simp [getConversationStart, h]
  · cases h : SanitizeID id <;> simp [getMessageStart, h]
  · cases h : SanitizeID id <;> simp [getTagStart, h]
  · cases h : SanitizeID id <;> simp [getInboxStart, h]
  · intro hA hNe hKnown
    simp only [ValidateIDPfx]
    rw [if_neg hA, if_neg hNe, if_neg hKnown]

/-- Witness for c1_amended_no_type_check_in_ops at the message-for-
conversation instance. -/
theorem c1_amended_no_type_check_in_ops_witness :
    getConversationStart "msg_abc123" ≠
      OpStart.localWrongType ⟨"conversation", "message", "msg_abc123"⟩ ∧
    ValidateIDPfx "msg_abc123" "cnv_" =
      some ⟨"conversation", "message", "msg_abc123"⟩ :=
  ⟨(c1_amended_no_type_check_in_ops "msg_abc123" "cnv_"
      ⟨"conversation", "message", "msg_abc123"⟩).1,
   by
    have h := (c1_amended_no_type_check_in_ops "msg_abc123" "cnv_"
      ⟨"conversation", "message", "msg_abc123"⟩).2.2.2.2
      (by decide) (by decide) (by decide)
    simpa using h⟩

/-- Decimal digit accumulator of strconv.ParseInt (base 10): none as
soon as a non-digit rune appears. -/
def decDigitsGo : List Char → Nat → Option Nat
  | [], acc => some acc
  | c :: rest, acc =>
    if c.isDigit then decDigitsGo rest (acc * 10 + (c.toNat - 48)) else none

/-- Digit run of strconv.ParseInt after the sign: none when empty or
when any rune is not a decimal digit. -/
def decDigitsOpt (l : List Char) : Option Nat :=
  match l with
  | [] => none
  | _ => decDigitsGo l 0

/-- Sign handling of strconv.ParseInt: strip one leading plus or minus;
the boolean is the negativity. -/
def signSplit (l : List Char) : Bool × List Char :=
  match l with
  | '+' :: rest => (false, rest)
  | '-' :: rest => (true, rest)
  | _ => (false, l)

/-- Largest value of the Go int64 type. -/
def int64Max : Int := 9223372036854775807

/-- Smallest value of the Go int64 type. -/
def int64Min : Int := -9223372036854775808

/-- strconv.Atoi: the returned value together with the err == nil flag.
A syntax error yields (0, false); an out-of-range integer yields the
clamped extreme with false (ErrRange); otherwise the value with true. -/
def goAtoi (s : String) : Int × Bool :=
  match signSplit s.toList with
  | (neg, digits) =>
    match decDigitsOpt digits with
    | none => (0, false)
    | some n =>
      if neg then
        if -(n : Int) < int64Min then (int64Min, false) else (-(n : Int), true)
      else
        if int64Max < (n : Int) then (int64Max, false) else ((n : Int), true)

/-- Whether strconv.Atoi accepts the string syntactically: an optional
sign followed by a nonempty run of decimal digits. -/
def isGoIntSyntax (s : String) : Bool :=
  (decDigitsOpt (signSplit s.toList).2).isSome

lemma goAtoi_syntax_error (s : String) (h : isGoIntSyntax s = false) :
    (goAtoi s).1 = 0 := by
  unfold goAtoi
  unfold isGoIntSyntax at h
  rcases hsp : signSplit s.toList with ⟨neg, digits⟩
  rw [hsp] at h
  simp only at h
  cases hd : decDigitsOpt digits with
  | none => simp [hd]
  | some n => rw [hd] at h; simp at h

/-- State of the rate limiter (struct RateLimiter): server-reported
limit, remaining count, burst limit, burst remaining, and the reset
instant, with none standing for the zero time (resetAt.IsZero()). -/
structure RateLimiterState where
  limit : Int
  remaining : Int
  burstLimit : Int
  burstRemaining : Int
  resetAt : Option Int
deriving DecidableEq

/-- sleepUntil: the duration actually slept when sleeping until a target
instant — zero when the target is not in the future. -/
def sleepUntilDur (now target : Int) : Int :=
  if target - now ≤ 0 then 0 else target - now

/-- The Go local `extra` of RateLimiter.Wait: burst credit is borrowed
only when burst-remaining is positive, capped at half the limit
(integer division, as in the source maxExtra := limit / 2). -/
def waitExtra (st : RateLimiterState) : Int :=
  if 0 < st.burstRemaining then
    if st.burstRemaining < Int.tdiv st.limit 2 then st.burstRemaining
    else Int.tdiv st.limit 2
  else 0

/-- RateLimiter.Wait, as the duration slept: immediately zero when the
limit is unset/nonpositive or the reset instant is the zero time;
otherwise either a full sleep until the reset instant (when at most one
effective unit remains) or an even-pacing interval
timeUntilReset / effectiveRemaining, clamped at zero.  Division is Go
(truncated) division. -/
def waitSleep (st : RateLimiterState) (now : Int) : Int :=
  if st.limit ≤ 0 ∨ st.resetAt = none then 0
  else if st.remaining + waitExtra st ≤ 1 then
    sleepUntilDur now (st.resetAt.getD 0)
  else if Int.tdiv (st.resetAt.getD 0 - now) (st.remaining + waitExtra st) ≤ 0 then 0
  else Int.tdiv (st.resetAt.getD 0 - now) (st.remaining + waitExtra st)

/-- The sleep duration prescribed by claim C2 word for word: extra is
min(burst-remaining, limit/2) with no positivity guard. -/
def waitSleepSpecClaimed (st : RateLimiterState) (now : Int) : Int :=
  if st.limit ≤ 0 ∨ st.resetAt = none then 0
  else if st.remaining + min st.burstRemaining (Int.tdiv st.limit 2) ≤ 1 then
    max 0 (st.resetAt.getD 0 - now)
  else if Int.tdiv (st.resetAt.getD 0 - now)
      (st.remaining + min st.burstRemaining (Int.tdiv st.limit 2)) ≤ 0 then 0
  else Int.tdiv (st.resetAt.getD 0 - now)
      (st.remaining + min st.burstRemaining (Int.tdiv st.limit 2))

/-- The amended sleep prescription: burst credit
min(burst-remaining, limit/2) is only granted when burst-remaining is
positive, otherwise no extra credit. -/
def waitSleepSpecAmended (st : RateLimiterState) (now : Int) : Int :=
  if st.limit ≤ 0 ∨ st.resetAt = none then 0
  else if st.remaining +
      (if 0 < st.burstRemaining then min st.burstRemaining (Int.tdiv st.limit 2) else 0) ≤ 1 then
    max 0 (st.resetAt.getD 0 - now)
  else if Int.tdiv (st.resetAt.getD 0 - now)
      (st.remaining +
        (if 0 < st.burstRemaining then min st.burstRemaining (Int.tdiv st.limit 2) else 0)) ≤ 0 then 0
  else Int.tdiv (st.resetAt.getD 0 - now)
      (st.remaining +
        (if 0 < st.burstRemaining then min st.burstRemaining (Int.tdiv st.limit 2) else 0))

lemma sleepUntilDur_eq_max (now target : Int) :
    sleepUntilDur now target = max 0 (target - now) := by
  unfold sleepUntilDur
  rcases le_or_lt (target - now) 0 with h | h
  · rw [if_pos h, max_eq_left h]
  · rw [if_neg (not_le.mpr h), max_eq_right (le_of_lt h)]

lemma waitExtra_eq_guarded_min (st : RateLimiterState) :
    waitExtra st =
      (if 0 < st.burstRemaining then min st.burstRemaining (Int.tdiv st.limit 2) else 0) := by
  unfold waitExtra
  rcases lt_or_ge 0 st.burstRemaining with h | h
  · rw [if_pos h, if_pos h]
    rcases lt_or_ge st.burstRemaining (Int.tdiv st.limit 2) with h2 | h2
    · rw [if_pos h2, min_eq_left (le_of_lt h2)]
    · rw [if_neg (not_lt.mpr h2), min_eq_right h2]
  · rw [if_neg (not_lt.mpr h), if_neg (not_lt.mpr h)]

/-- C2 counterexample: at the stored state limit=10, remaining=3,
burst-remaining=-3 (a negative burst header value), reset 30s away — the
claimed formula (extra = min(burst-remaining, limit/2) unguarded) gives
effectiveRemaining 0 and demands a full sleep to the reset instant
(30s), but Wait grants no burst credit for a nonpositive
burst-remaining, computes effectiveRemaining 3 and sleeps the pacing
interval of 10s. -/
theorem c2_counterexample :
    waitSleep ⟨10, 3, 10, -3, some 30000000000⟩ 0 = 10000000000 ∧
    waitSleepSpecClaimed ⟨10, 3, 10, -3, some 30000000000⟩ 0 = 30000000000 ∧
    waitSleep ⟨10, 3, 10, -3, some 30000000000⟩ 0 ≠
      waitSleepSpecClaimed ⟨10, 3, 10, -3, some 30000000000⟩ 0 := by
  refine ⟨by decide, by decide, by decide⟩

/-- C2 amended: for every stored state and instant, Wait sleeps exactly
as the claim prescribes once extra burst credit is granted only for a
positive burst-remaining: immediate return on unset/nonpositive limit or
unset reset instant; full sleep to the reset instant when
effectiveRemaining = remaining + extra is at most 1; otherwise the
truncated interval timeUntilReset / effectiveRemaining, with no sleep
when that interval is nonpositive. -/
theorem c2_amended_wait_pacing (st : RateLimiterState) (now : Int) :
    waitSleep st now = waitSleepSpecAmended st now := by
  unfold waitSleep waitSleepSpecAmended
  rw [waitExtra_eq_guarded_min, sleepUntilDur_eq_max]

/-- Go error values as far as this layer builds them: the
ErrNotAuthenticated sentinel, other opaque errors, and fmt.Errorf
wrapping with one or two %w verbs. -/
inductive GoErr where
  | notAuthenticated : GoErr
  | sentinel (tag : String) : GoErr
  | wrap1 (msg : String) (inner : GoErr) : GoErr
  | wrap2 (msg : String) (first second : GoErr) : GoErr
deriving DecidableEq

/-- errors.Is: the error equals the target or wraps something that
does. -/
def GoErr.isErr : GoErr → GoErr → Bool
  | GoErr.notAuthenticated, t => GoErr.notAuthenticated == t
  | GoErr.sentinel tag, t => GoErr.sentinel tag == t
  | GoErr.wrap1 msg i, t => GoErr.wrap1 msg i == t || GoErr.isErr i t
  | GoErr.wrap2 msg a b, t =>
    GoErr.wrap2 msg a b == t || GoErr.isErr a t || GoErr.isErr b t

/-- The stored keyring token, as far as refresh reads it. -/
structure StoredToken where
  refreshToken : String
deriving DecidableEq

/-- OAuth client credentials from the config file. -/
structure ClientCredentials where
  clientID : String
  clientSecret : String
deriving DecidableEq

/-- Token returned by the OAuth exchange. -/
structure ExchangedToken where
  accessToken : String
  refreshToken : String
  expiry : Int
deriving DecidableEq

/-- TokenSource.refresh, with its three effectful steps (keyring read,
credentials read, network exchange) as explicit outcomes: a keyring
failure is wrapped together with ErrNotAuthenticated
(fmt.Errorf("%w: %w", ErrNotAuthenticated, err)); an empty stored
refresh token is ErrNotAuthenticated itself; a credentials-read failure
is wrapped as "read credentials"; an exchange failure is wrapped as
"refresh token"; success yields the new access token and expiry. -/
def tsRefresh (getToken : Except GoErr StoredToken)
    (readClientCredentials : Except GoErr ClientCredentials)
    (exchange : Except GoErr ExchangedToken) : Except GoErr (String × Int) :=
  match getToken with
  | Except.error e => Except.error (GoErr.wrap2 "%w: %w" GoErr.notAuthenticated e)
  | Except.ok tok =>
    if tok.refreshToken = "" then Except.error GoErr.notAuthenticated
    else
      match readClientCredentials with
      | Except.error e => Except.error (GoErr.wrap1 "read credentials" e)
      | Except.ok _ =>
        match exchange with
        | Except.error e => Except.error (GoErr.wrap1 "refresh token" e)
        | Except.ok t => Except.ok (t.accessToken, t.expiry)

/-- C7 counterexample: a refresh whose client-credentials read fails is
wrapped as "read credentials: …", an error that does not match the
not-authenticated sentinel under errors.Is — contradicting the claim
that any failing refresh step surfaces as the "not authenticated"
error. -/
theorem c7_counterexample :
    tsRefresh (Except.ok ⟨"refresh-token-value"⟩)
        (Except.error (GoErr.sentinel "config read failed"))
        (Except.ok ⟨"at", "rt", 0⟩) =
      Except.error (GoErr.wrap1 "read credentials" (GoErr.sentinel "config read failed")) ∧
    (GoErr.wrap1 "read credentials" (GoErr.sentinel "config read failed")).isErr
        GoErr.notAuthenticated = false := by
  exact ⟨rfl, by decide⟩

/-- net/http StatusText for the 4xx/5xx codes (418 omitted); empty for
unknown codes, as in the stdlib map. -/
def statusText (code : Nat) : String :=
  if code = 400 then "Bad Request"
  else if code = 401 then "Unauthorized"
  else if code = 402 then "Payment Required"
  else if code = 403 then "Forbidden"
  else if code = 404 then "Not Found"
  else if code = 405 then "Method Not Allowed"
  else if code = 406 then "Not Acceptable"
  else if code = 407 then "Proxy Authentication Required"
  else if code = 408 then "Request Timeout"
  else if code = 409 then "Conflict"
  else if code = 410 then "Gone"
  else if code = 411 then "Length Required"
  else if code = 412 then "Precondition Failed"
  else if code = 413 then "Request Entity Too Large"
  else if code = 414 then "Request URI Too Long"
  else if code = 415 then "Unsupported Media Type"
  else if code = 416 then "Requested Range Not Satisfiable"
  else if code = 417 then "Expectation Failed"
  else if code = 421 then "Misdirected Request"
  else if code = 422 then "Unprocessable Entity"
  else if code = 423 then "Locked"
  else if code = 424 then "Failed Dependency"
  else if code = 425 then "Too Early"
  else if code = 426 then "Upgrade Required"
  else if code = 428 then "Precondition Required"
  else if code = 429 then "Too Many Requests"
  else if code = 431 then "Request Header Fields Too Large"
  else if code = 451 then "Unavailable For Legal Reasons"
  else if code = 500 then "Internal Server Error"
  else if code = 501 then "Not Implemented"
  else if code = 502 then "Bad Gateway"
  else if code = 503 then "Service Unavailable"
  else if code = 504 then "Gateway Timeout"
  else if code = 505 then "HTTP Version Not Supported"
  else if code = 506 then "Variant Also Negotiates"
  else if code = 507 then "Insufficient Storage"
  else if code = 508 then "Loop Detected"
  else if code = 510 then "Not Extended"
  else if code = 511 then "Network Authentication Required"
  else ""

/-- An HTTP response as this layer inspects it: status code, the
Retry-After header value ("" when absent, as http.Header.Get reports),
the body text, and whether the body decodes into the target type. -/
structure Response where
  status : Nat
  retryAfter : String
  body : String
  decodeOK : Bool
deriving DecidableEq

/-- Outcome of Client.do: success, the AuthError wrapping a token-source
failure, a typed APIError, a RateLimitError with parsed Retry-After
seconds, or a JSON decode failure. -/
inductive DoResult where
  | ok : DoResult
  | authError (e : GoErr) : DoResult
  | apiError (status : Nat) (message : String) (details : String) : DoResult
  | rateLimitError (retryAfter : Int) : DoResult
  | decodeError : DoResult
deriving DecidableEq

/-- Observable side effects of one Client.do call: number of requests
dispatched, token-source invalidations, rate-limiter waits, and token
fetches. -/
structure DoTrace where
  requests : Nat
  invalidations : Nat
  limiterWaits : Nat
  tokenFetches : Nat
deriving DecidableEq

/-- The APIError Client.do builds for a 401 (both on the exhausted
retry and in the unreachable post-loop return). -/
def unauthorizedAPIError : DoResult :=
  DoResult.apiError 401 "unauthorized" "token may be expired; try logging in again"

/-- The attempt loop of Client.do.  Each attempt: rate-limiter wait
(modelled as always succeeding, counted), token fetch (a failure is
terminal: AuthError), dispatch (the response oracle `net` indexed by
request count), then the status mapping of the source: 401 invalidates
the token source and either retries (first attempt) or yields the
unauthorized APIError; 404, 429, and other ≥ 400 statuses map to their
typed errors; otherwise the body is decoded when a target is expected
and the status is not 204.  The fuel is the remaining iterations of the
two-attempt loop; fuel 0 is the post-loop return. -/
def doAttempt (tokens : Nat → Except GoErr String) (net : Nat → Response)
    (wantOut : Bool) : Nat → Nat → DoTrace → DoResult × DoTrace
  | 0, _, tr => (unauthorizedAPIError, tr)
  | fuel + 1, attempt, tr0 =>
    match tokens tr0.tokenFetches with
    | Except.error e =>
      (DoResult.authError e,
        { tr0 with limiterWaits := tr0.limiterWaits + 1,
                   tokenFetches := tr0.tokenFetches + 1 })
    | Except.ok _tok =>
      let resp := net tr0.requests
      let tr1 : DoTrace :=
        { tr0 with limiterWaits := tr0.limiterWaits + 1,
                   tokenFetches := tr0.tokenFetches + 1,
                   requests := tr0.requests + 1 }
      if resp.status = 401 then
        let tr2 : DoTrace := { tr1 with invalidations := tr1.invalidations + 1 }
        if attempt = 0 then doAttempt tokens net wantOut fuel (attempt + 1) tr2
        else (unauthorizedAPIError, tr2)
      else if resp.status = 404 then
        (DoResult.apiError 404 "not found" "", tr1)
      else if resp.status = 429 then
        (DoResult.rateLimitError
          (if resp.retryAfter = "" then 0 else (goAtoi resp.retryAfter).1), tr1)
      else if 400 ≤ resp.status then
        (DoResult.apiError resp.status (statusText resp.status) resp.body, tr1)
      else if wantOut = true ∧ resp.status ≠ 204 then
        (if resp.decodeOK then (DoResult.ok, tr1) else (DoResult.decodeError, tr1))
      else
        (DoResult.ok, tr1)

/-- Client.do: the two-attempt loop from a fresh trace. -/
def clientDo (tokens : Nat → Except GoErr String) (net : Nat → Response)
    (wantOut : Bool) : DoResult × DoTrace :=
  doAttempt tokens net wantOut 2 0 ⟨0, 0, 0, 0⟩

/-- C6: when the first response is a 401 and the token source keeps
serving tokens, Client.do invalidates the token source once, performs
exactly one retried request — going again through the rate-limiter wait
and a fresh token fetch, so both count 2 — and dispatches no third
request whatever the retried response is; when the retried response is
again a 401, the token source is invalidated a second time and the call
surfaces the authentication-flavored APIError with status 401. -/
theorem c6_single_reauth_retry (tokens : Nat → Except GoErr String)
    (net : Nat → Response) (wantOut : Bool) (tok0 tok1 : String)
    (h0 : tokens 0 = Except.ok tok0) (h1 : tokens 1 = Except.ok tok1)
    (hs : (net 0).status = 401) :
    (clientDo tokens net wantOut).2.requests = 2 ∧
    (clientDo tokens net wantOut).2.limiterWaits = 2 ∧
    (clientDo tokens net wantOut).2.tokenFetches = 2 ∧
    (clientDo tokens net wantOut).2.invalidations =
      1 + (if (net 1).status = 401 then 1 else 0) ∧
    ((net 1).status = 401 →
      (clientDo tokens net wantOut).1 = unauthorizedAPIError) := by
  have step : clientDo tokens net wantOut =
      doAttempt tokens net wantOut 1 1 ⟨1, 1, 1, 1⟩ := by
    simp [clientDo, doAttempt, h0, hs]
  rw [step]
  simp only [doAttempt, h1]
  by_cases h401 : (net 1).status = 401
  · simp [h401]
  · simp only [if_neg h401, if_neg (by omega : ¬(1 : Nat) = 0)]
    by_cases h404 : (net 1).status = 404
    · simp [h404, h401]
    · simp only [if_neg h404]
      by_cases h429 : (net 1).status = 429
      · simp [h429, h401]
      · simp only [if_neg h429]
        by_cases h400 : 400 ≤ (net 1).status
        · simp [h400, h401]
        · simp only [if_neg h400]
          by_cases hdec : wantOut = true ∧ (net 1).status ≠ 204
          · by_cases hok : (net 1).decodeOK <;> simp [hdec, hok, h401]
          · simp [hdec, h401]

/-- Witness for c6_single_reauth_retry: every response is a 401. -/
theorem c6_single_reauth_retry_witness :
    (clientDo (fun _ => Except.ok "tok") (fun _ => Response.mk 401 "" "" true) true).2.requests = 2 ∧
    (clientDo (fun _ => Except.ok "tok") (fun _ => Response.mk 401 "" "" true) true).2.invalidations = 2 ∧
    (clientDo (fun _ => Except.ok "tok") (fun _ => Response.mk 401 "" "" true) true).1 =
      unauthorizedAPIError := by
  have h := c6_single_reauth_retry (fun _ => Except.ok "tok")
    (fun _ => Response.mk 401 "" "" true) true "tok" "tok" rfl rfl rfl
  exact ⟨h.1, h.2.2.2.1, h.2.2.2.2 rfl⟩

/-- C10: a 429 response is mapped to a RateLimitError whose RetryAfter
is the Retry-After header run through strconv.Atoi with the error
discarded — 0 when the header is absent; and every header value that is
not a syntactically plain decimal integer (an HTTP-date, for instance)
parses to 0. -/
theorem c10_retry_after_plain_integer (tokens : Nat → Except GoErr String)
    (net : Nat → Response) (wantOut : Bool) (tok0 : String)
    (h0 : tokens 0 = Except.ok tok0) (hs : (net 0).status = 429) :
    (clientDo tokens net wantOut).1 =
      DoResult.rateLimitError
        (if (net 0).retryAfter = "" then 0 else (goAtoi (net 0).retryAfter).1) ∧
    (∀ s : String, isGoIntSyntax s = false → (goAtoi s).1 = 0) := by
  constructor
  · simp [clientDo, doAttempt, h0, hs]
  · exact goAtoi_syntax_error

/-- Witness for c10_retry_after_plain_integer: a 429 carrying an
HTTP-date Retry-After value maps to RetryAfter 0. -/
theorem c10_retry_after_plain_integer_witness :
    (clientDo (fun _ => Except.ok "tok")
        (fun _ => Response.mk 429 "Wed, 21 Oct 2015 07:28:00 GMT" "" true) true).1 =
      DoResult.rateLimitError 0 :=
  (c10_retry_after_plain_integer (fun _ => Except.ok "tok")
    (fun _ => Response.mk 429 "Wed, 21 Oct 2015 07:28:00 GMT" "" true) true "tok"
    rfl rfl).1

/-- C7 amended: only a failure to load the stored refresh credential
(or an empty stored refresh token) surfaces as the not-authenticated
error; a client-credentials read failure is wrapped as
"read credentials: …" and a token-exchange failure as
"refresh token: …", neither matching the not-authenticated sentinel
under errors.Is; in every case the API client treats a token-source
error as terminal for the request: it returns an AuthError wrapping the
refresh error after zero dispatched requests and no further
authentication attempt. -/
theorem c7_amended_refresh_error_surface (e : GoErr) (tok : StoredToken)
    (creds : Except GoErr ClientCredentials) (ex : Except GoErr ExchangedToken)
    (tokens : Nat → Except GoErr String) (net : Nat → Response) (wantOut : Bool) :
    (tsRefresh (Except.error e) creds ex =
        Except.error (GoErr.wrap2 "%w: %w" GoErr.notAuthenticated e) ∧
      (GoErr.wrap2 "%w: %w" GoErr.notAuthenticated e).isErr GoErr.notAuthenticated = true) ∧
    (tok.refreshToken = "" →
      tsRefresh (Except.ok tok) creds ex = Except.error GoErr.notAuthenticated) ∧
    (tok.refreshToken ≠ "" →
      (∀ e2 : GoErr, creds = Except.error e2 →
        tsRefresh (Except.ok tok) creds ex =
          Except.error (GoErr.wrap1 "read credentials" e2)) ∧
      (∀ (c : ClientCredentials) (e2 : GoErr), creds = Except.ok c →
        ex = Except.error e2 →
        tsRefresh (Except.ok tok) creds ex =
          Except.error (GoErr.wrap1 "refresh token" e2))) ∧
    (tokens 0 = Except.error e →
      clientDo tokens net wantOut = (DoResult.authError e, ⟨0, 0, 1, 1⟩)) := by
  refine ⟨⟨rfl, ?_⟩, ?_, ?_, ?_⟩
  · simp [GoErr.isErr]
  · intro h
    simp [tsRefresh, h]
  · intro h
    constructor
    · intro e2 hc
      simp [tsRefresh, h, hc]
    · intro c e2 hc hx
      simp [tsRefresh, h, hc, hx]
  · intro h
    simp [clientDo, doAttempt, h]

/-- Witness for c7_amended_refresh_error_surface at concrete refresh
outcomes and a failing token source. -/
theorem c7_amended_refresh_error_surface_witness :
    tsRefresh (Except.ok ⟨"refresh-token-value"⟩)
        (Except.error (GoErr.sentinel "config read failed")) (Except.ok ⟨"at", "rt", 0⟩) =
      Except.error (GoErr.wrap1 "read credentials" (GoErr.sentinel "config read failed")) ∧
    clientDo (fun _ => Except.error (GoErr.sentinel "boom"))
        (fun _ => Response.mk 200 "" "" true) true =
      (DoResult.authError (GoErr.sentinel "boom"), ⟨0, 0, 1, 1⟩) := by
  have h := c7_amended_refresh_error_surface (GoErr.sentinel "boom")
    ⟨"refresh-token-value"⟩ (Except.error (GoErr.sentinel "config read failed"))
    (Except.ok ⟨"at", "rt", 0⟩) (fun _ => Except.error (GoErr.sentinel "boom"))
    (fun _ => Response.mk 200 "" "" true) true
  exact ⟨(h.2.2.1 (by decide)).1 (GoErr.sentinel "config read failed") rfl,
    h.2.2.2 rfl⟩

/-- Source constant MaxRateLimitRetries: per-call retry budget for 429
responses. -/
def MaxRateLimitRetries : Nat := 3

/-- Source constant Max5xxRetries: per-call retry budget for 5xx
responses. -/
def Max5xxRetries : Nat := 1

/-- Outcome of RetryTransport.RoundTrip: a response handed to the
caller, the fail-fast CircuitBreakerError, or fuel exhaustion of the
model (unreachable: the loop performs at most 1 + MaxRateLimitRetries +
Max5xxRetries sends). -/
inductive RTResult where
  | response (resp : Response) : RTResult
  | circuitBreakerOpen : RTResult
  | outOfFuel : RTResult
deriving DecidableEq

/-- Observable state of one RoundTrip call: sends performed so far and
the circuit breaker. -/
structure RTState where
  sends : Nat
  cb : CircuitBreaker
deriving DecidableEq

/-- The retry loop of RetryTransport.RoundTrip.  Each iteration sends
(the oracle `base` indexed by send count) and classifies: status < 400
records a breaker success and returns the response; 429 retries after a
backoff while the per-call 429 budget lasts, else returns the response
as-is; status ≥ 500 records a breaker failure (stamped with the send
instant) and retries while the 5xx budget lasts, else returns the
response; any other ≥ 400 status returns immediately.  Backoff sleeps
and body draining/replay do not alter the observable outcome and are
not tracked. -/
def roundTripLoop (base : Nat → Response) (sendTime : Nat → Int)
    (maxRetries429 maxRetries5xx : Nat) :
    Nat → Nat → Nat → RTState → Option (Response × RTState)
  | 0, _, _, _ => none
  | fuel + 1, retries429, retries5xx, st =>
    if (base st.sends).status < 400 then
      some (base st.sends, ⟨st.sends + 1, RecordSuccess st.cb⟩)
    else if (base st.sends).status = 429 then
      if maxRetries429 ≤ retries429 then some (base st.sends, ⟨st.sends + 1, st.cb⟩)
      else roundTripLoop base sendTime maxRetries429 maxRetries5xx fuel
        (retries429 + 1) retries5xx ⟨st.sends + 1, st.cb⟩
    else if 500 ≤ (base st.sends).status then
      if maxRetries5xx ≤ retries5xx then
        some (base st.sends, ⟨st.sends + 1, (RecordFailure st.cb (sendTime st.sends)).1⟩)
      else roundTripLoop base sendTime maxRetries429 maxRetries5xx fuel
        retries429 (retries5xx + 1) ⟨st.sends + 1, (RecordFailure st.cb (sendTime st.sends)).1⟩
    else some (base st.sends, ⟨st.sends + 1, st.cb⟩)

/-- RetryTransport.RoundTrip: fail fast with CircuitBreakerError when
the breaker is open, else run the retry loop with the default budgets. -/
def RoundTrip (base : Nat → Response) (sendTime : Nat → Int) (now : Int)
    (cb : CircuitBreaker) : RTResult × RTState :=
  if (IsOpen cb now).2 then (RTResult.circuitBreakerOpen, ⟨0, (IsOpen cb now).1⟩)
  else
    match roundTripLoop base sendTime MaxRateLimitRetries Max5xxRetries
        (MaxRateLimitRetries + Max5xxRetries + 1) 0 0 ⟨0, (IsOpen cb now).1⟩ with
    | some (resp, st) => (RTResult.response resp, st)
    | none => (RTResult.outOfFuel, ⟨0, (IsOpen cb now).1⟩)

/-- C5: with the per-call 429 budget of MaxRateLimitRetries = 3 and a
request whose sends keep yielding 429 responses, RoundTrip from a fresh
breaker consumes the whole budget — three retries follow the initial
send, four sends in total — and then hands the caller the final 429
response unmodified, as a normal response rather than an error, with
the breaker untouched. -/
theorem c5_429_retry_budget (base : Nat → Response) (sendTime : Nat → Int)
    (now : Int) (h : ∀ i, (base i).status = 429) :
    MaxRateLimitRetries = 3 ∧
    RoundTrip base sendTime now NewCircuitBreaker =
      (RTResult.response (base MaxRateLimitRetries),
        ⟨MaxRateLimitRetries + 1, NewCircuitBreaker⟩) := by
  refine ⟨rfl, ?_⟩
  simp [RoundTrip, IsOpen, NewCircuitBreaker, roundTripLoop,
    MaxRateLimitRetries, Max5xxRetries, h 0, h 1, h 2, h 3]

/-- Witness for c5_429_retry_budget: the constant all-429 oracle. -/
theorem c5_429_retry_budget_witness :
    RoundTrip (fun _ => Response.mk 429 "" "" true) (fun _ => 0) 0 NewCircuitBreaker =
      (RTResult.response (Response.mk 429 "" "" true), ⟨4, NewCircuitBreaker⟩) :=
  (c5_429_retry_budget (fun _ => Response.mk 429 "" "" true) (fun _ => 0) 0
    (fun _ => rfl)).2

end Frontapp
